import Mathlib

/-!
Verification of the 4-bit processor behavioral simulator.

This file gives a shallow embedding of the processor-model code of
`src/simulator_gui.py` and `src/simulator_gui_enhanced.py`
(classes `XOR_1b`, `FA_1b`, `Adder_4b`, `ALU_4b`, `FSMState`, `Processor`)
and proves the specification's claims about it.

Modelling conventions:
  - Python ints are modelled as `Nat` (all values handled by the engine are
    non-negative); 4-bit wrapping is everywhere explicit in the source
    (`& 0xF`) and mirrored with `&&& 0xF`.
  - Python statements that can raise (`IndexError` on the 7-entry mnemonic
    list, `AttributeError` on the missing `program` attribute of the
    `simulator_gui.py` `Processor`) are modelled by `Option`: `none` means
    the call raised an exception.
  - `Processor.clock_cycle` is split into `recordPhase` (the unconditional
    `cycle_count` increment and waveform appends at the top of the method)
    followed by `fsmPhase` (the state-machine `if/elif` chain), composed in
    `clock_cycle`; this mirrors the statement order of the source.
  - The gate/adder/ALU classes are textually identical in the two source
    files, so they are defined once and shared by both processor models.
-/

namespace Proc4

/-- Result of the call number `n` (0-indexed) in a sequence of calls to a
fallible step operation, starting from state `p`; `none` if any call up to
and including that one raises. -/
def stepsResult {α : Type} (step : α → Option (Bool × α)) : Nat → α → Option (Bool × α)
  | 0, p => step p
  | n + 1, p =>
    match step p with
    | some q => stepsResult step n q.2
    | none => none

/-- `XOR_1b.compute`: `(a and not b) or (not a and b)`. -/
def XOR_1b (a b : Bool) : Bool := (a && !b) || (!a && b)

/-- `FA_1b.compute`: sum and carry of a 1-bit full adder built on `XOR_1b`. -/
def FA_1b (a b cin : Bool) : Bool × Bool :=
  let xor_ab := XOR_1b a b
  (XOR_1b xor_ab cin, (a && b) || (cin && xor_ab))

/-- `Adder_4b.compute`: `for i in range(4)` ripple loop, accumulating
`result |= s_bit << i` and threading the carry, then `result & 0xF`.
The Python loop is modelled as a fold over the index list `[0,1,2,3]`. -/
def Adder_4b (a b : Nat) (cin : Bool) : Nat × Bool :=
  let f : Nat × Bool → Nat → Nat × Bool := fun acc i =>
    let sc := FA_1b (((a >>> i) &&& 1) == 1) (((b >>> i) &&& 1) == 1) acc.2
    (acc.1 ||| ((if sc.1 then 1 else 0) <<< i), sc.2)
  let r := [0, 1, 2, 3].foldl f (0, cin)
  (r.1 &&& 0xF, r.2)

/-- `ALU_4b.compute`. Python's `(~x) & 0xF` on a value already masked to
4 bits equals `x ^^^ 0xF` (bitwise complement within 4 bits). -/
def ALU_4b (a b s : Nat) (cin : Bool) : Nat × Bool :=
  let a := a &&& 0xF
  let b := b &&& 0xF
  let s := s &&& 0x7
  if s == 0 then (a, false)
  else if s == 1 then Adder_4b a b cin
  else if s == 2 then Adder_4b a (b ^^^ 0xF) true
  else if s == 3 then (a &&& b, false)
  else if s == 4 then (a ||| b, false)
  else if s == 5 then
    let g : Nat → Nat → Nat := fun acc i =>
      acc ||| ((if XOR_1b (((a >>> i) &&& 1) == 1) (((b >>> i) &&& 1) == 1) then 1 else 0) <<< i)
    ([0, 1, 2, 3].foldl g 0, false)
  else if s == 6 then (a ^^^ 0xF, false)
  else (0, false)

/-- The control FSM states, `class FSMState(Enum)`. -/
inductive FSMState
  | INIT
  | FETCH
  | LOAD
  | EXECUTE
  | STORE
  deriving DecidableEq

/-- `FSMState.value` as declared by the `Enum` members. -/
def FSMState.value : FSMState → Nat
  | .INIT => 0
  | .FETCH => 1
  | .LOAD => 2
  | .EXECUTE => 3
  | .STORE => 4

/-- One `execution_log` message, keeping the numeric payloads of the
formatted strings the source appends (the prose around them is constant). -/
inductive LogMsg
  | init
  | fetchComplete
  | fetch (pc instr : Nat)
  | load (addr val : Nat)
  | exec (opcode a b s result : Nat)
  | store (addr val : Nat)
  deriving DecidableEq

namespace SimGui

/-- The `Processor` of `src/simulator_gui.py`.

`loaded_op1/op2/opcode/mem` are not assigned in `__init__`; they are first
written in the LOAD state and, through the public entry points, never read
before being written, so they are modelled as 0-initialized fields.
`program` is also absent until `load_program` runs, and unlike the latched
fields it IS read (in FETCH) before any assignment, so it is modelled as
`Option (List Nat)` with `none` for the absent attribute: reading it then
raises `AttributeError`. -/
structure Processor where
  memory : List Nat
  pc : Nat
  state : FSMState
  instruction : Nat
  alu_result : Nat
  alu_cout : Bool
  cycle_count : Nat
  execution_log : List (Nat × LogMsg)
  wf_clk : List Nat
  wf_pc : List Nat
  wf_state : List Nat
  wf_alu_out : List Nat
  wf_ram_addr : List Nat
  wf_ram_data : List Nat
  loaded_op1 : Nat
  loaded_op2 : Nat
  loaded_opcode : Nat
  loaded_mem : Nat
  program : Option (List Nat)
  deriving DecidableEq

/-- `Processor.__init__`. -/
def mkProcessor : Processor where
  memory := List.replicate 16 0
  pc := 0
  state := .INIT
  instruction := 0
  alu_result := 0
  alu_cout := false
  cycle_count := 0
  execution_log := []
  wf_clk := []
  wf_pc := []
  wf_state := []
  wf_alu_out := []
  wf_ram_addr := []
  wf_ram_data := []
  loaded_op1 := 0
  loaded_op2 := 0
  loaded_opcode := 0
  loaded_mem := 0
  program := none

/-- `Processor.reset`: note that it touches neither `memory`, nor the
latched `loaded_*` fields, nor `program`. -/
def reset (p : Processor) : Processor :=
  { p with
    pc := 0
    state := .INIT
    instruction := 0
    alu_result := 0
    alu_cout := false
    cycle_count := 0
    execution_log := []
    wf_clk := []
    wf_pc := []
    wf_state := []
    wf_alu_out := []
    wf_ram_addr := []
    wf_ram_data := [] }

/-- `Processor.load_program`: stores the program and resets the PC. -/
def load_program (p : Processor) (program : List Nat) : Processor :=
  { p with program := some program, pc := 0 }

/-- The unconditional top of `Processor.clock_cycle`: increment
`cycle_count`, then append to the clk/pc/state/alu_out waveform histories
(clk records the incremented counter mod 2; the others record the
pre-transition values). -/
def recordPhase (p : Processor) : Processor :=
  { p with
    cycle_count := p.cycle_count + 1
    wf_clk := p.wf_clk ++ [(p.cycle_count + 1) % 2]
    wf_pc := p.wf_pc ++ [p.pc]
    wf_state := p.wf_state ++ [p.state.value]
    wf_alu_out := p.wf_alu_out ++ [p.alu_result] }

/-- The `if/elif` state-machine chain of `Processor.clock_cycle`, run after
the record phase.  `none` models a raised exception:
  - in FETCH, `len(self.program)` raises `AttributeError` when no program
    was ever loaded;
  - in EXECUTE, the mnemonic lookup
    `["STO","ADD","SUB","AND","OR","XOR","NOT"][opcode]` raises
    `IndexError` when `opcode` is outside 0..6. -/
def fsmPhase (p : Processor) : Option (Bool × Processor) :=
  match p.state with
  | .INIT =>
    some (true, { p with
      execution_log := p.execution_log ++ [(p.cycle_count, .init)]
      state := .FETCH })
  | .FETCH =>
    match p.program with
    | none => none
    | some prog =>
      if prog.length ≤ p.pc then
        some (false, { p with
          execution_log := p.execution_log ++ [(p.cycle_count, .fetchComplete)] })
      else
        let instr := prog.getD p.pc 0
        some (true, { p with
          instruction := instr
          execution_log := p.execution_log ++ [(p.cycle_count, .fetch p.pc instr)]
          pc := p.pc + 1
          state := .LOAD })
  | .LOAD =>
    let opcode := (p.instruction >>> 8) &&& 0x7
    let op1 := (p.instruction >>> 4) &&& 0xF
    let op2 := p.instruction &&& 0xF
    let mem_value := p.memory.getD op1 0
    some (true, { p with
      execution_log := p.execution_log ++ [(p.cycle_count, .load op1 mem_value)]
      loaded_op1 := op1
      loaded_op2 := op2
      loaded_opcode := opcode
      loaded_mem := mem_value
      wf_ram_addr := p.wf_ram_addr ++ [op1]
      wf_ram_data := p.wf_ram_data ++ [mem_value]
      state := .EXECUTE })
  | .EXECUTE =>
    let opcode := p.loaded_opcode
    let op2 := p.loaded_op2
    let mem_val := p.loaded_mem
    if 7 ≤ opcode then none
    else
      let alu_s :=
        if opcode == 0 then 0
        else if opcode == 1 then 1
        else if opcode == 2 then 2
        else if opcode == 3 then 3
        else if opcode == 4 then 4
        else if opcode == 5 then 5
        else if opcode == 6 then 6
        else 0
      let alu_cin := opcode == 2
      let alu_a := if opcode == 0 then op2 else mem_val
      let alu_b := op2
      let r := ALU_4b alu_a alu_b alu_s alu_cin
      some (true, { p with
        alu_result := r.1
        alu_cout := r.2
        execution_log := p.execution_log ++ [(p.cycle_count, .exec opcode alu_a alu_b alu_s r.1)]
        state := .STORE })
  | .STORE =>
    some (true, { p with
      memory := p.memory.set p.loaded_op1 p.alu_result
      execution_log := p.execution_log ++ [(p.cycle_count, .store p.loaded_op1 p.alu_result)]
      wf_ram_addr := p.wf_ram_addr ++ [p.loaded_op1]
      wf_ram_data := p.wf_ram_data ++ [p.alu_result]
      state := .FETCH })

/-- `Processor.clock_cycle`: record phase then FSM phase. -/
def clock_cycle (p : Processor) : Option (Bool × Processor) :=
  fsmPhase (recordPhase p)

end SimGui

namespace SimGuiEnh

/-- The `Processor` of `src/simulator_gui_enhanced.py`.  Differences from
the `simulator_gui.py` one: `program` is initialized to `[]` in `__init__`
(so it is a plain field here), and the waveform history has an extra
`instruction` signal. -/
structure Processor where
  memory : List Nat
  pc : Nat
  state : FSMState
  instruction : Nat
  alu_result : Nat
  alu_cout : Bool
  cycle_count : Nat
  execution_log : List (Nat × LogMsg)
  wf_clk : List Nat
  wf_pc : List Nat
  wf_state : List Nat
  wf_alu_out : List Nat
  wf_ram_addr : List Nat
  wf_ram_data : List Nat
  wf_instruction : List Nat
  loaded_op1 : Nat
  loaded_op2 : Nat
  loaded_opcode : Nat
  loaded_mem : Nat
  program : List Nat
  deriving DecidableEq

/-- `Processor.__init__` (enhanced file): `self.program = []`. -/
def mkProcessor : Processor where
  memory := List.replicate 16 0
  pc := 0
  state := .INIT
  instruction := 0
  alu_result := 0
  alu_cout := false
  cycle_count := 0
  execution_log := []
  wf_clk := []
  wf_pc := []
  wf_state := []
  wf_alu_out := []
  wf_ram_addr := []
  wf_ram_data := []
  wf_instruction := []
  loaded_op1 := 0
  loaded_op2 := 0
  loaded_opcode := 0
  loaded_mem := 0
  program := []

/-- `Processor.reset` (enhanced file): clears every history list but, as in
the other file, touches neither `memory` nor the latched fields nor
`program`. -/
def reset (p : Processor) : Processor :=
  { p with
    pc := 0
    state := .INIT
    instruction := 0
    alu_result := 0
    alu_cout := false
    cycle_count := 0
    execution_log := []
    wf_clk := []
    wf_pc := []
    wf_state := []
    wf_alu_out := []
    wf_ram_addr := []
    wf_ram_data := []
    wf_instruction := [] }

/-- `Processor.load_program` (enhanced file). -/
def load_program (p : Processor) (program : List Nat) : Processor :=
  { p with program := program, pc := 0 }

/-- Top of `Processor.clock_cycle` (enhanced file): same four appends as
the other file plus the `instruction` history. -/
def recordPhase (p : Processor) : Processor :=
  { p with
    cycle_count := p.cycle_count + 1
    wf_clk := p.wf_clk ++ [(p.cycle_count + 1) % 2]
    wf_pc := p.wf_pc ++ [p.pc]
    wf_state := p.wf_state ++ [p.state.value]
    wf_alu_out := p.wf_alu_out ++ [p.alu_result]
    wf_instruction := p.wf_instruction ++ [p.instruction] }

/-- The `if/elif` state-machine chain of the enhanced `clock_cycle`.
Differences from `simulator_gui.py`: `program` always exists, and the SUB
branch does NOT set `alu_cin` (it stays `False`); the EXECUTE mnemonic
lookup still raises `IndexError` on opcode 7. -/
def fsmPhase (p : Processor) : Option (Bool × Processor) :=
  match p.state with
  | .INIT =>
    some (true, { p with
      execution_log := p.execution_log ++ [(p.cycle_count, .init)]
      state := .FETCH })
  | .FETCH =>
    if p.program.length ≤ p.pc then
      some (false, { p with
        execution_log := p.execution_log ++ [(p.cycle_count, .fetchComplete)] })
    else
      let instr := p.program.getD p.pc 0
      some (true, { p with
        instruction := instr
        execution_log := p.execution_log ++ [(p.cycle_count, .fetch p.pc instr)]
        pc := p.pc + 1
        state := .LOAD })
  | .LOAD =>
    let opcode := (p.instruction >>> 8) &&& 0x7
    let op1 := (p.instruction >>> 4) &&& 0xF
    let op2 := p.instruction &&& 0xF
    let mem_value := p.memory.getD op1 0
    some (true, { p with
      execution_log := p.execution_log ++ [(p.cycle_count, .load op1 mem_value)]
      loaded_op1 := op1
      loaded_op2 := op2
      loaded_opcode := opcode
      loaded_mem := mem_value
      wf_ram_addr := p.wf_ram_addr ++ [op1]
      wf_ram_data := p.wf_ram_data ++ [mem_value]
      state := .EXECUTE })
  | .EXECUTE =>
    let opcode := p.loaded_opcode
    let op2 := p.loaded_op2
    let mem_val := p.loaded_mem
    if 7 ≤ opcode then none
    else
      let alu_s :=
        if opcode == 0 then 0
        else if opcode == 1 then 1
        else if opcode == 2 then 2
        else if opcode == 3 then 3
        else if opcode == 4 then 4
        else if opcode == 5 then 5
        else if opcode == 6 then 6
        else 0
      let alu_cin := false
      let alu_a := if opcode == 0 then op2 else mem_val
      let alu_b := op2
      let r := ALU_4b alu_a alu_b alu_s alu_cin
      some (true, { p with
        alu_result := r.1
        alu_cout := r.2
        execution_log := p.execution_log ++ [(p.cycle_count, .exec opcode alu_a alu_b alu_s r.1)]
        state := .STORE })
  | .STORE =>
    some (true, { p with
      memory := p.memory.set p.loaded_op1 p.alu_result
      execution_log := p.execution_log ++ [(p.cycle_count, .store p.loaded_op1 p.alu_result)]
      wf_ram_addr := p.wf_ram_addr ++ [p.loaded_op1]
      wf_ram_data := p.wf_ram_data ++ [p.alu_result]
      state := .FETCH })

/-- `Processor.clock_cycle` (enhanced file). -/
def clock_cycle (p : Processor) : Option (Bool × Processor) :=
  fsmPhase (recordPhase p)

end SimGuiEnh

/-- Coupling relation between the two `Processor` implementations: all
fields that the step dynamics and the observable trace depend on agree
(histories and logs are excluded; they do not feed back into the dynamics). -/
def Sim (g : SimGui.Processor) (e : SimGuiEnh.Processor) : Prop :=
  g.memory = e.memory ∧ g.pc = e.pc ∧ g.state = e.state ∧
  g.instruction = e.instruction ∧ g.alu_result = e.alu_result ∧
  g.alu_cout = e.alu_cout ∧ g.loaded_op1 = e.loaded_op1 ∧
  g.loaded_op2 = e.loaded_op2 ∧ g.loaded_opcode = e.loaded_opcode ∧
  g.loaded_mem = e.loaded_mem ∧ g.program = some e.program

/-- Observable state of the `simulator_gui.py` processor: Memory, PC,
ControlState, ALU result, ALU carry-out. -/
def obsG (g : SimGui.Processor) : List Nat × Nat × FSMState × Nat × Bool :=
  (g.memory, g.pc, g.state, g.alu_result, g.alu_cout)

/-- Observable state of the `simulator_gui_enhanced.py` processor. -/
def obsE (e : SimGuiEnh.Processor) : List Nat × Nat × FSMState × Nat × Bool :=
  (e.memory, e.pc, e.state, e.alu_result, e.alu_cout)

/-- Lock-step matching of one step result of each implementation: both
raise, or both return the same continue/halt flag with related states. -/
def StepRel : Option (Bool × SimGui.Processor) → Option (Bool × SimGuiEnh.Processor) → Prop
  | none, none => True
  | some (b, g), some (c, e) => b = c ∧ Sim g e
  | _, _ => False

/-- Concrete processor used to witness the FSM-cycle theorem: a fresh
processor with program `[ADD 0x4, 0x5]` already in the FETCH state. -/
def c2Proc : SimGui.Processor :=
  { SimGui.load_program SimGui.mkProcessor [0x145] with state := FSMState.FETCH }

/-- Concrete halted processor used to witness the halt theorem: a fresh
processor with the empty program, in the FETCH state. -/
def c6Proc : SimGui.Processor :=
  { SimGui.load_program SimGui.mkProcessor [] with state := FSMState.FETCH }

/-- Concrete post-state of the first `clock_cycle` call on a fresh
processor, used to witness the recorder theorem. -/
def c8After : SimGui.Processor :=
  { SimGui.recordPhase SimGui.mkProcessor with
    execution_log := [(1, LogMsg.init)]
    state := FSMState.FETCH }

end Proc4

namespace Proc4

/-! Theorems. -/

/-- The FSM phase of `clock_cycle` never touches the clk/pc/state/alu_out
waveform histories: only the record phase appends to them. -/
theorem fsmPhase_keeps_histories (q : SimGui.Processor) (b : Bool) (r : SimGui.Processor)
    (h : SimGui.fsmPhase q = some (b, r)) :
    r.wf_clk = q.wf_clk ∧ r.wf_pc = q.wf_pc ∧ r.wf_state = q.wf_state ∧
      r.wf_alu_out = q.wf_alu_out := by
  obtain ⟨mem, pc, st, instr, ar, ac, cc, lg, w1, w2, w3, w4, w5, w6, l1, l2, l3, l4, pr⟩ := q
  cases st
  case INIT =>
    simp only [SimGui.fsmPhase, Option.some.injEq, Prod.mk.injEq] at h
    obtain ⟨h1, h2⟩ := h
    subst h2
    exact ⟨rfl, rfl, rfl, rfl⟩
  case FETCH =>
    cases pr with
    | none => exact Option.noConfusion h
    | some prog =>
      simp only [SimGui.fsmPhase] at h
      by_cases hle : prog.length ≤ pc
      · rw [if_pos hle] at h
        simp only [Option.some.injEq, Prod.mk.injEq] at h
        obtain ⟨h1, h2⟩ := h
        subst h2
        exact ⟨rfl, rfl, rfl, rfl⟩
      · rw [if_neg hle] at h
        simp only [Option.some.injEq, Prod.mk.injEq] at h
        obtain ⟨h1, h2⟩ := h
        subst h2
        exact ⟨rfl, rfl, rfl, rfl⟩
  case LOAD =>
    simp only [SimGui.fsmPhase, Option.some.injEq, Prod.mk.injEq] at h
    obtain ⟨h1, h2⟩ := h
    subst h2
    exact ⟨rfl, rfl, rfl, rfl⟩
  case EXECUTE =>
    simp only [SimGui.fsmPhase] at h
    by_cases h7 : 7 ≤ l3
    · rw [if_pos h7] at h
      exact Option.noConfusion h
    · rw [if_neg h7] at h
      simp only [Option.some.injEq, Prod.mk.injEq] at h
      obtain ⟨h1, h2⟩ := h
      subst h2
      exact ⟨rfl, rfl, rfl, rfl⟩
  case STORE =>
    simp only [SimGui.fsmPhase, Option.some.injEq, Prod.mk.injEq] at h
    obtain ⟨h1, h2⟩ := h
    subst h2
    exact ⟨rfl, rfl, rfl, rfl⟩

/-- C4: for all `a, b` in `[0,15]` and `cin` in `{0,1}`, the 4-bit ripple
adder (four chained 1-bit full adders, carry rippled low-to-high) returns
sum `(a+b+cin) mod 16` and carry-out `(a+b+cin) >= 16`. -/
theorem C4_ripple_adder (a b : Nat) (ha : a < 16) (hb : b < 16) (cin : Bool) :
    Adder_4b a b cin = ((a + b + cin.toNat) % 16, decide (16 ≤ a + b + cin.toNat)) := by
  have h : ∀ x < 16, ∀ y < 16, ∀ c : Bool,
      Adder_4b x y c = ((x + y + c.toNat) % 16, decide (16 ≤ x + y + c.toNat)) := by decide
  exact h a ha b hb cin

/-- Witness for C4 at `a = 9`, `b = 8`, `cin = true`. -/
theorem C4_ripple_adder_witness :
    (9 : Nat) < 16 ∧ (8 : Nat) < 16 ∧
      Adder_4b 9 8 true = ((9 + 8 + Bool.toNat true) % 16, decide (16 ≤ 9 + 8 + Bool.toNat true)) :=
  ⟨by decide, by decide, C4_ripple_adder 9 8 (by decide) (by decide) true⟩

/-- C5: for all `a, b` in `[0,15]` and any caller-supplied carry-in, the
ALU subtract operation (select `010`) returns `(a - b) mod 16`, and is
computed as the adder applied to `a` and the bitwise complement of `b`
with carry-in forced true. -/
theorem C5_alu_subtract (a b : Nat) (ha : a < 16) (hb : b < 16) (cin : Bool) :
    ((ALU_4b a b 2 cin).1 : Int) = ((a : Int) - b) % 16 ∧
      ALU_4b a b 2 cin = Adder_4b a (b ^^^ 0xF) true := by
  have h : ∀ x < 16, ∀ y < 16, ∀ c : Bool,
      ((ALU_4b x y 2 c).1 : Int) = ((x : Int) - y) % 16 ∧
        ALU_4b x y 2 c = Adder_4b x (y ^^^ 0xF) true := by decide
  exact h a ha b hb cin

/-- Witness for C5 at `a = 5`, `b = 7`, `cin = false`: `5 - 7 = -2 ≡ 14`. -/
theorem C5_alu_subtract_witness :
    (5 : Nat) < 16 ∧ (7 : Nat) < 16 ∧
      (((ALU_4b 5 7 2 false).1 : Int) = ((5 : Int) - 7) % 16 ∧
        ALU_4b 5 7 2 false = Adder_4b 5 (7 ^^^ 0xF) true) :=
  ⟨by decide, by decide, C5_alu_subtract 5 7 (by decide) (by decide) false⟩

/-- C1 (code bug): the spec requires that executing an opcode-7
instruction via `step()` must not crash and yields the documented
fallback (the ALU alone does return `(0, false)` for select `111`, last
conjunct).  The engine violates this: on the program `[0x700]` (opcode
field 7) the first three calls succeed (INIT, FETCH, LOAD), and the
fourth call — the EXECUTE state — raises `IndexError` at the 7-entry
mnemonic-list lookup, modelled as `none`. -/
theorem C1_opcode7_crashes :
    (stepsResult SimGui.clock_cycle 2
        (SimGui.load_program SimGui.mkProcessor [0x700])).map Prod.fst = some true ∧
    stepsResult SimGui.clock_cycle 3 (SimGui.load_program SimGui.mkProcessor [0x700]) = none ∧
    stepsResult SimGuiEnh.clock_cycle 3
        (SimGuiEnh.load_program SimGuiEnh.mkProcessor [0x700]) = none ∧
    ALU_4b 0 0 7 false = (0, false) := by
  refine ⟨by decide, by decide, by decide, by decide⟩

/-- C10: a freshly constructed `simulator_gui.py` processor has no
`program` attribute, so the second `step()` call (the first one made in
the FETCH state) raises `AttributeError` (`none`), while the enhanced
processor starts with the empty program and reports halted (`false`)
at the same point. -/
theorem C10_missing_program_attribute :
    (stepsResult SimGui.clock_cycle 0 SimGui.mkProcessor).map Prod.fst = some true ∧
    (stepsResult SimGui.clock_cycle 0 SimGui.mkProcessor).map (fun r => r.2.state)
      = some FSMState.FETCH ∧
    stepsResult SimGui.clock_cycle 1 SimGui.mkProcessor = none ∧
    (stepsResult SimGuiEnh.clock_cycle 1 SimGuiEnh.mkProcessor).map Prod.fst = some false := by
  refine ⟨by decide, by decide, by decide, by decide⟩

/-- C3 counterexample: run the one-instruction program `STO 0x4, 0x5` to
completion (5 calls: INIT, FETCH, LOAD, EXECUTE, STORE — memory cell 4
becomes 5), then `reset()`.  The claim says all 16 memory cells are then
0; in fact `reset` never touches `memory`, so cell 4 still holds 5. -/
theorem C3_counterexample :
    ¬ ((stepsResult SimGui.clock_cycle 4
          (SimGui.load_program SimGui.mkProcessor [0x045])).map
            (fun r => (SimGui.reset r.2).memory) = some (List.replicate 16 0)) := by
  decide

/-- C3 amended: in both implementations, `reset()` restores PC, state,
the latched instruction register, the ALU result and carry-out, and the
cycle counter to their zero/INIT defaults and empties every recorder
history, but leaves the 16 Memory cells AND the latched decode fields
(`loaded_op1/op2/opcode/mem`) unchanged, as well as the loaded Program
reference. -/
theorem C3_reset_amended (g : SimGui.Processor) (e : SimGuiEnh.Processor) :
    (SimGui.reset g).pc = 0 ∧ (SimGui.reset g).state = FSMState.INIT ∧
    (SimGui.reset g).instruction = 0 ∧ (SimGui.reset g).alu_result = 0 ∧
    (SimGui.reset g).alu_cout = false ∧ (SimGui.reset g).cycle_count = 0 ∧
    (SimGui.reset g).execution_log = [] ∧ (SimGui.reset g).wf_clk = [] ∧
    (SimGui.reset g).wf_pc = [] ∧ (SimGui.reset g).wf_state = [] ∧
    (SimGui.reset g).wf_alu_out = [] ∧ (SimGui.reset g).wf_ram_addr = [] ∧
    (SimGui.reset g).wf_ram_data = [] ∧
    (SimGui.reset g).memory = g.memory ∧
    (SimGui.reset g).loaded_op1 = g.loaded_op1 ∧
    (SimGui.reset g).loaded_op2 = g.loaded_op2 ∧
    (SimGui.reset g).loaded_opcode = g.loaded_opcode ∧
    (SimGui.reset g).loaded_mem = g.loaded_mem ∧
    (SimGui.reset g).program = g.program ∧
    (SimGuiEnh.reset e).pc = 0 ∧ (SimGuiEnh.reset e).state = FSMState.INIT ∧
    (SimGuiEnh.reset e).instruction = 0 ∧ (SimGuiEnh.reset e).alu_result = 0 ∧
    (SimGuiEnh.reset e).alu_cout = false ∧ (SimGuiEnh.reset e).cycle_count = 0 ∧
    (SimGuiEnh.reset e).execution_log = [] ∧ (SimGuiEnh.reset e).wf_clk = [] ∧
    (SimGuiEnh.reset e).wf_pc = [] ∧ (SimGuiEnh.reset e).wf_state = [] ∧
    (SimGuiEnh.reset e).wf_alu_out = [] ∧ (SimGuiEnh.reset e).wf_ram_addr = [] ∧
    (SimGuiEnh.reset e).wf_ram_data = [] ∧ (SimGuiEnh.reset e).wf_instruction = [] ∧
    (SimGuiEnh.reset e).memory = e.memory ∧
    (SimGuiEnh.reset e).loaded_op1 = e.loaded_op1 ∧
    (SimGuiEnh.reset e).loaded_op2 = e.loaded_op2 ∧
    (SimGuiEnh.reset e).loaded_opcode = e.loaded_opcode ∧
    (SimGuiEnh.reset e).loaded_mem = e.loaded_mem ∧
    (SimGuiEnh.reset e).program = e.program := by
  refine ⟨rfl, rfl, rfl, rfl, rfl, rfl, rfl, rfl, rfl, rfl, rfl, rfl, rfl, rfl, rfl, rfl,
    rfl, rfl, rfl, rfl, rfl, rfl, rfl, rfl, rfl, rfl, rfl, rfl, rfl, rfl, rfl, rfl, rfl,
    rfl, rfl, rfl, rfl, rfl, rfl⟩

/-- A single `clock_cycle` at FETCH with the program exhausted reports
halted and preserves memory, PC, state and program. -/
theorem halt_step (p : SimGui.Processor) (prog : List Nat)
    (hprog : p.program = some prog) (hstate : p.state = FSMState.FETCH)
    (hpc : prog.length ≤ p.pc) :
    ∃ r, SimGui.clock_cycle p = some (false, r) ∧ r.memory = p.memory ∧
      r.pc = p.pc ∧ r.state = p.state ∧ r.program = p.program := by
  obtain ⟨mem, pc, st, instr, ar, ac, cc, lg, w1, w2, w3, w4, w5, w6, l1, l2, l3, l4, pr⟩ := p
  have hst : st = FSMState.FETCH := hstate
  subst hst
  have hpr : pr = some prog := hprog
  subst hpr
  have hle : prog.length ≤ pc := hpc
  exact ⟨_, by
    simp only [SimGui.clock_cycle, SimGui.recordPhase, SimGui.fsmPhase]
    rw [if_pos hle], by rfl, by rfl, by rfl, by rfl⟩

/-- C6: once the program is exhausted and the processor sits at FETCH,
the next `step()` call and every subsequent one reports halted (returns
`false`) and leaves Memory, PC and ControlState unchanged. -/
theorem C6_halt_noop (p : SimGui.Processor) (prog : List Nat)
    (hprog : p.program = some prog) (hstate : p.state = FSMState.FETCH)
    (hpc : prog.length ≤ p.pc) (n : Nat) :
    ∃ r, stepsResult SimGui.clock_cycle n p = some (false, r) ∧
      r.memory = p.memory ∧ r.pc = p.pc ∧ r.state = FSMState.FETCH := by
  induction n generalizing p with
  | zero =>
    obtain ⟨r, hr, hm, hp, hs, hpg⟩ := halt_step p prog hprog hstate hpc
    exact ⟨r, hr, hm, hp, hs.trans hstate⟩
  | succ n ih =>
    obtain ⟨r, hr, hm, hp, hs, hpg⟩ := halt_step p prog hprog hstate hpc
    have hprog2 : r.program = some prog := hpg.trans hprog
    have hstate2 : r.state = FSMState.FETCH := hs.trans hstate
    have hpc2 : prog.length ≤ r.pc := by rw [hp]; exact hpc
    obtain ⟨r2, hr2, hm2, hp2, hs2⟩ := ih r hprog2 hstate2 hpc2
    refine ⟨r2, ?_, hm2.trans hm, hp2.trans hp, hs2⟩
    simp only [stepsResult, hr]
    exact hr2

/-- Witness for C6: the empty program at FETCH, three further calls. -/
theorem C6_halt_noop_witness :
    ∃ r, stepsResult SimGui.clock_cycle 2 c6Proc = some (false, r) ∧
      r.memory = c6Proc.memory ∧ r.pc = c6Proc.pc ∧ r.state = FSMState.FETCH :=
  C6_halt_noop c6Proc [] rfl rfl (by decide) 2

/-- Related states have the same observables. -/
theorem sim_obs (g : SimGui.Processor) (e : SimGuiEnh.Processor) (h : Sim g e) :
    obsG g = obsE e := by
  obtain ⟨h1, h2, h3, h4, h5, h6, h7, h8, h9, h10, h11⟩ := h
  simp [obsG, obsE, h1, h2, h3, h5, h6]

/-- One step preserves the coupling relation: from related states, the two
engines either both raise, or both return the same flag and stay related.
The only asymmetry in the source — `simulator_gui.py` sets `alu_cin` for
SUB while the enhanced file leaves it `False` — is absorbed because the
ALU ignores the caller's carry-in for select `010`. -/
theorem step_sim (g : SimGui.Processor) (e : SimGuiEnh.Processor) (h : Sim g e) :
    StepRel (SimGui.clock_cycle g) (SimGuiEnh.clock_cycle e) := by
  obtain ⟨gmem, gpc, gst, gin, gar, gac, gcc, glg, gw1, gw2, gw3, gw4, gw5, gw6,
    gl1, gl2, gl3, gl4, gpr⟩ := g
  obtain ⟨emem, epc, est, ein, ear, eac, ecc, elg, ew1, ew2, ew3, ew4, ew5, ew6, ew7,
    el1, el2, el3, el4, epr⟩ := e
  obtain ⟨h1, h2, h3, h4, h5, h6, h7, h8, h9, h10, h11⟩ := h
  have q1 : gmem = emem := h1
  subst q1
  have q2 : gpc = epc := h2
  subst q2
  have q3 : gst = est := h3
  subst q3
  have q4 : gin = ein := h4
  subst q4
  have q5 : gar = ear := h5
  subst q5
  have q6 : gac = eac := h6
  subst q6
  have q7 : gl1 = el1 := h7
  subst q7
  have q8 : gl2 = el2 := h8
  subst q8
  have q9 : gl3 = el3 := h9
  subst q9
  have q10 : gl4 = el4 := h10
  subst q10
  have q11 : gpr = some epr := h11
  subst q11
  cases gst
  case INIT =>
    exact ⟨rfl, rfl, rfl, rfl, rfl, rfl, rfl, rfl, rfl, rfl, rfl, rfl⟩
  case FETCH =>
    by_cases hc : epr.length ≤ gpc
    · simp [SimGui.clock_cycle, SimGui.fsmPhase, SimGui.recordPhase,
        SimGuiEnh.clock_cycle, SimGuiEnh.fsmPhase, SimGuiEnh.recordPhase, hc, StepRel, Sim]
    · simp [SimGui.clock_cycle, SimGui.fsmPhase, SimGui.recordPhase,
        SimGuiEnh.clock_cycle, SimGuiEnh.fsmPhase, SimGuiEnh.recordPhase, hc, StepRel, Sim]
  case LOAD =>
    exact ⟨rfl, rfl, rfl, rfl, rfl, rfl, rfl, rfl, rfl, rfl, rfl, rfl⟩
  case EXECUTE =>
    by_cases h7le : 7 ≤ gl3
    · simp [SimGui.clock_cycle, SimGui.fsmPhase, SimGui.recordPhase,
        SimGuiEnh.clock_cycle, SimGuiEnh.fsmPhase, SimGuiEnh.recordPhase, h7le, StepRel]
    · have hlt : gl3 < 7 := Nat.lt_of_not_le h7le
      interval_cases gl3 <;>
        simp +decide [SimGui.clock_cycle, SimGui.fsmPhase, SimGui.recordPhase,
          SimGuiEnh.clock_cycle, SimGuiEnh.fsmPhase, SimGuiEnh.recordPhase,
          StepRel, Sim, ALU_4b]
  case STORE =>
    exact ⟨rfl, rfl, rfl, rfl, rfl, rfl, rfl, rfl, rfl, rfl, rfl, rfl⟩

/-- Lock-step trace equality: from related states, the two engines produce
the same (flag, observables) result at every call index (`none` on both
sides when a call raises). -/
theorem trace_sim (n : Nat) (g : SimGui.Processor) (e : SimGuiEnh.Processor) (h : Sim g e) :
    (stepsResult SimGui.clock_cycle n g).map (fun r => (r.1, obsG r.2))
      = (stepsResult SimGuiEnh.clock_cycle n e).map (fun r => (r.1, obsE r.2)) := by
  induction n generalizing g e with
  | zero =>
    have hs := step_sim g e h
    rcases hg : SimGui.clock_cycle g with _ | ⟨b, g2⟩ <;>
      rcases he : SimGuiEnh.clock_cycle e with _ | ⟨c, e2⟩ <;>
      rw [hg, he] at hs
    · simp [stepsResult, hg, he]
    · simp [StepRel] at hs
    · simp [StepRel] at hs
    · simp only [StepRel] at hs
      obtain ⟨hbc, hsim⟩ := hs
      subst hbc
      simp only [stepsResult, hg, he, Option.map]
      rw [sim_obs g2 e2 hsim]
  | succ n ih =>
    have hs := step_sim g e h
    rcases hg : SimGui.clock_cycle g with _ | ⟨b, g2⟩ <;>
      rcases he : SimGuiEnh.clock_cycle e with _ | ⟨c, e2⟩ <;>
      rw [hg, he] at hs
    · simp [stepsResult, hg, he]
    · simp [StepRel] at hs
    · simp [StepRel] at hs
    · simp only [StepRel] at hs
      obtain ⟨hbc, hsim⟩ := hs
      simp only [stepsResult, hg, he]
      exact ih g2 e2 hsim

/-- C9: for every program loaded via `load_program` on a fresh processor
and every sequence of `step()` calls, the two `Processor` implementations
produce identical observable traces — Memory, PC, ControlState, ALU
result, ALU carry-out, and the return value of every call (including
raising at the same call, `none = none`).  In particular the SUB carry-in
flag that only `simulator_gui.py` sets does not cause a divergence. -/
theorem C9_engines_equivalent (prog : List Nat) (n : Nat) :
    (stepsResult SimGui.clock_cycle n (SimGui.load_program SimGui.mkProcessor prog)).map
        (fun r => (r.1, obsG r.2))
      = (stepsResult SimGuiEnh.clock_cycle n
          (SimGuiEnh.load_program SimGuiEnh.mkProcessor prog)).map (fun r => (r.1, obsE r.2)) :=
  trace_sim n _ _ ⟨rfl, rfl, rfl, rfl, rfl, rfl, rfl, rfl, rfl, rfl, rfl⟩

/-- Writing one list cell does not change any other cell. -/
theorem getD_set_ne (l : List Nat) (i j v : Nat) (h : i ≠ j) :
    (l.set i v).getD j 0 = l.getD j 0 := by
  simp [List.getD_eq_getElem?_getD, List.getElem?_set_ne h]

/-- C2: starting from FETCH with `PC < len(program)` and a defined opcode
(field value 0..6), exactly 4 `step()` calls — FETCH, LOAD, EXECUTE,
STORE — all return the continue signal, and afterwards the FSM is back at
FETCH, the PC has advanced by exactly 1, and Memory has been written at
exactly one address, the `addr` field decoded in LOAD (it now holds the
ALU result, and every other address is unchanged): every opcode writes
back. -/
theorem C2_fsm_cycle (p : SimGui.Processor) (prog : List Nat)
    (hprog : p.program = some prog) (hstate : p.state = FSMState.FETCH)
    (hmem : p.memory.length = 16) (hpc : p.pc < prog.length)
    (hop : (prog.getD p.pc 0 >>> 8) &&& 0x7 ≠ 7) :
    ∃ r,
      stepsResult SimGui.clock_cycle 3 p = some (true, r) ∧
      (stepsResult SimGui.clock_cycle 0 p).map Prod.fst = some true ∧
      (stepsResult SimGui.clock_cycle 1 p).map Prod.fst = some true ∧
      (stepsResult SimGui.clock_cycle 2 p).map Prod.fst = some true ∧
      r.state = FSMState.FETCH ∧
      r.pc = p.pc + 1 ∧
      r.memory = p.memory.set ((prog.getD p.pc 0 >>> 4) &&& 0xF) r.alu_result ∧
      ∀ j, j ≠ (prog.getD p.pc 0 >>> 4) &&& 0xF →
        r.memory.getD j 0 = p.memory.getD j 0 := by
  obtain ⟨mem, pc, st, instr, ar, ac, cc, lg, w1, w2, w3, w4, w5, w6, l1, l2, l3, l4, pr⟩ := p
  have hst : st = FSMState.FETCH := hstate
  subst hst
  have hpr : pr = some prog := hprog
  subst hpr
  have hlt : pc < prog.length := hpc
  have hnle : ¬ (prog.length ≤ pc) := Nat.not_le.mpr hlt
  have hop7 : ¬ (7 ≤ (prog.getD pc 0 >>> 8) &&& 0x7) :=
    Nat.not_le.mpr (lt_of_le_of_ne Nat.and_le_right hop)
  exact ⟨_, by
      simp only [stepsResult, SimGui.clock_cycle, SimGui.recordPhase, SimGui.fsmPhase,
        hnle, hop7, if_false, ite_false]
      rfl
    , by
      simp only [stepsResult, SimGui.clock_cycle, SimGui.recordPhase, SimGui.fsmPhase,
        hnle, hop7, if_false, ite_false]
      rfl
    , by
      simp only [stepsResult, SimGui.clock_cycle, SimGui.recordPhase, SimGui.fsmPhase,
        hnle, hop7, if_false, ite_false]
      rfl
    , by
      simp only [stepsResult, SimGui.clock_cycle, SimGui.recordPhase, SimGui.fsmPhase,
        hnle, hop7, if_false, ite_false]
      rfl
    , by rfl, by rfl, by rfl, by
      intro j hj
      exact getD_set_ne mem _ j _ (Ne.symm hj)⟩

/-- Witness for C2: one ADD instruction on a fresh processor at FETCH. -/
theorem C2_fsm_cycle_witness :
    ∃ r,
      stepsResult SimGui.clock_cycle 3 c2Proc = some (true, r) ∧
      (stepsResult SimGui.clock_cycle 0 c2Proc).map Prod.fst = some true ∧
      (stepsResult SimGui.clock_cycle 1 c2Proc).map Prod.fst = some true ∧
      (stepsResult SimGui.clock_cycle 2 c2Proc).map Prod.fst = some true ∧
      r.state = FSMState.FETCH ∧
      r.pc = c2Proc.pc + 1 ∧
      r.memory = c2Proc.memory.set (([0x145].getD c2Proc.pc 0 >>> 4) &&& 0xF) r.alu_result ∧
      ∀ j, j ≠ ([0x145].getD c2Proc.pc 0 >>> 4) &&& 0xF →
        r.memory.getD j 0 = c2Proc.memory.getD j 0 :=
  C2_fsm_cycle c2Proc [0x145] rfl rfl (by decide) (by decide) (by decide)

/-- C8: every completing `step()` call — including calls made after halt —
appends exactly one entry to each of the clk, pc, state and alu_out
history signals, leaving all previously appended entries in place and in
order (the new history is the old one with a single entry appended). -/
theorem C8_recorder_append (p : SimGui.Processor) (b : Bool) (r : SimGui.Processor)
    (h : SimGui.clock_cycle p = some (b, r)) :
    r.wf_clk = p.wf_clk ++ [(p.cycle_count + 1) % 2] ∧
    r.wf_pc = p.wf_pc ++ [p.pc] ∧
    r.wf_state = p.wf_state ++ [p.state.value] ∧
    r.wf_alu_out = p.wf_alu_out ++ [p.alu_result] :=
  fsmPhase_keeps_histories (SimGui.recordPhase p) b r h

/-- Witness for C8: the first call on a fresh processor. -/
theorem C8_recorder_append_witness :
    c8After.wf_clk = SimGui.mkProcessor.wf_clk ++ [(SimGui.mkProcessor.cycle_count + 1) % 2] ∧
    c8After.wf_pc = SimGui.mkProcessor.wf_pc ++ [SimGui.mkProcessor.pc] ∧
    c8After.wf_state = SimGui.mkProcessor.wf_state ++ [SimGui.mkProcessor.state.value] ∧
    c8After.wf_alu_out = SimGui.mkProcessor.wf_alu_out ++ [SimGui.mkProcessor.alu_result] :=
  C8_recorder_append SimGui.mkProcessor true c8After (by decide)

/-- C7: in both implementations, `load_program(p)` replaces the program
with `p`, resets PC to 0, and leaves ControlState and all Memory cells
unchanged (for every processor state and every instruction sequence). -/
theorem C7_load_program (g : SimGui.Processor) (e : SimGuiEnh.Processor) (prog : List Nat) :
    (SimGui.load_program g prog).program = some prog ∧
    (SimGui.load_program g prog).pc = 0 ∧
    (SimGui.load_program g prog).state = g.state ∧
    (SimGui.load_program g prog).memory = g.memory ∧
    (SimGuiEnh.load_program e prog).program = prog ∧
    (SimGuiEnh.load_program e prog).pc = 0 ∧
    (SimGuiEnh.load_program e prog).state = e.state ∧
    (SimGuiEnh.load_program e prog).memory = e.memory :=
  ⟨rfl, rfl, rfl, rfl, rfl, rfl, rfl, rfl⟩

end Proc4
